import Mathlib

/-!
Verification of the crossway game core: the rules engine (board graph, move
application, win detection, repetition detection), the server room manager
(join / reconnect / leave / host migration), the socket gateway handlers and
the rate limiter, shallowly embedded from the TypeScript sources.
Wall-clock time (`Date.now()`) is passed explicitly as a `Nat` parameter, and
pending `setTimeout` handles are modelled as a list of timer keys.
-/

set_option maxHeartbeats 1000000

namespace Crossway

/-! ## Rules engine data model -/

inductive Position where
  | L1 | L2 | L3 | R1 | R2 | R3 | CT | CL | CC | CR | CB
deriving DecidableEq, Fintype, Repr

inductive Player where
  | blue | red
deriving DecidableEq, Repr

inductive GameStatus where
  | playing | blue_wins | red_wins | blue_forfeit | red_forfeit
deriving DecidableEq, Repr

inductive RepetitionRule where
  | warning | forfeit | block
deriving DecidableEq, Repr

structure Move where
  from_ : Position
  to_ : Position
  player : Player
deriving DecidableEq, Repr

structure RepetitionWarnings where
  blue : Nat
  red : Nat
deriving DecidableEq, Repr

structure GameState where
  currentPlayer : Player
  bluePieces : List Position
  redPieces : List Position
  selectedPiece : Option Position
  status : GameStatus
  moveHistory : List Move
  boardStateHistory : List String
  repetitionWarnings : RepetitionWarnings
deriving DecidableEq, Repr

structure GameSettings where
  enabledRules : List RepetitionRule
  blitzEnabled : Bool
  blitzTimeLimit : Nat
deriving DecidableEq, Repr

def RECONNECT_GRACE_PERIOD_MS : Nat := 30000

def BLUE_HOME : List Position := [.L1, .L2, .L3]

def RED_HOME : List Position := [.R1, .R2, .R3]

def BOARD_GRAPH : Position → List Position
  | .L1 => [.L2]
  | .L2 => [.L1, .L3, .CL]
  | .L3 => [.L2]
  | .R1 => [.R2]
  | .R2 => [.R1, .R3, .CR]
  | .R3 => [.R2]
  | .CT => [.CC, .CL, .CR]
  | .CL => [.CC, .CT, .CB, .L2]
  | .CC => [.CT, .CL, .CR, .CB]
  | .CR => [.CC, .CT, .CB, .R2]
  | .CB => [.CC, .CL, .CR]

def createInitialGameState : GameState :=
  { currentPlayer := .blue
    bluePieces := [.L1, .L2, .L3]
    redPieces := [.R1, .R2, .R3]
    selectedPiece := none
    status := .playing
    moveHistory := []
    boardStateHistory := []
    repetitionWarnings := { blue := 0, red := 0 } }

def createDefaultSettings : GameSettings :=
  { enabledRules := [.warning], blitzEnabled := false, blitzTimeLimit := 10 }

/-- Rank of each cell name in the lexicographic (UTF-16 code unit) order that
JavaScript's default `Array.sort` uses on the cell-name strings:
CB < CC < CL < CR < CT < L1 < L2 < L3 < R1 < R2 < R3. -/
def posKey : Position → Nat
  | .CB => 0 | .CC => 1 | .CL => 2 | .CR => 3 | .CT => 4
  | .L1 => 5 | .L2 => 6 | .L3 => 7 | .R1 => 8 | .R2 => 9 | .R3 => 10

def posName : Position → String
  | .L1 => "L1" | .L2 => "L2" | .L3 => "L3"
  | .R1 => "R1" | .R2 => "R2" | .R3 => "R3"
  | .CT => "CT" | .CL => "CL" | .CC => "CC" | .CR => "CR" | .CB => "CB"

def posLE (a b : Position) : Prop := posKey a ≤ posKey b

instance : DecidableRel posLE := fun a b => inferInstanceAs (Decidable (posKey a ≤ posKey b))

instance : IsTotal Position posLE := ⟨fun a b => Nat.le_total (posKey a) (posKey b)⟩

instance : IsTrans Position posLE := ⟨fun _ _ _ h1 h2 => Nat.le_trans h1 h2⟩

theorem posKey_injective : ∀ a b : Position, posKey a = posKey b → a = b := by decide

instance : IsAntisymm Position posLE :=
  ⟨fun a b h1 h2 => posKey_injective a b (Nat.le_antisymm h1 h2)⟩

/-- `[...pieces].sort()` from the source: sort the cells in the lexicographic
order of their names. -/
def sortPositions (l : List Position) : List Position := l.insertionSort posLE

def playerName : Player → String
  | .blue => "blue"
  | .red => "red"

def serializeBoardState (state : GameState) : String :=
  let blue := String.intercalate "," ((sortPositions state.bluePieces).map posName)
  let red := String.intercalate "," ((sortPositions state.redPieces).map posName)
  playerName state.currentPlayer ++ ":" ++ blue ++ "|" ++ red

def getAllPiecePositions (state : GameState) : List Position :=
  state.bluePieces ++ state.redPieces

def isPositionOccupied (position : Position) (state : GameState) : Bool :=
  decide (position ∈ getAllPiecePositions state)

def getValidMoves (position : Position) (state : GameState) : List Position :=
  (BOARD_GRAPH position).filter (fun neighbor => !isPositionOccupied neighbor state)

def getPieceOwner (position : Position) (state : GameState) : Option Player :=
  if position ∈ state.bluePieces then some .blue
  else if position ∈ state.redPieces then some .red
  else none

def canPlayerMove (player : Player) (state : GameState) : Bool :=
  let pieces := if player = Player.blue then state.bluePieces else state.redPieces
  pieces.any (fun pos => decide (0 < (getValidMoves pos state).length))

def checkWinCondition (state : GameState) : GameStatus :=
  let blueInRedHome := state.bluePieces.all (fun pos => decide (pos ∈ RED_HOME))
  let redInBlueHome := state.redPieces.all (fun pos => decide (pos ∈ BLUE_HOME))
  if blueInRedHome then .blue_wins
  else if redInBlueHome then .red_wins
  else if !canPlayerMove state.currentPlayer state then
    (if state.currentPlayer = Player.blue then .red_wins else .blue_wins)
  else .playing

def makeMove (f t : Position) (state : GameState) : GameState :=
  match getPieceOwner f state with
  | none => state
  | some owner =>
    if owner ≠ state.currentPlayer then state
    else if t ∉ getValidMoves f state then state
    else
      let newBluePieces :=
        if owner = Player.blue then state.bluePieces.map (fun p => if p = f then t else p)
        else state.bluePieces
      let newRedPieces :=
        if owner = Player.red then state.redPieces.map (fun p => if p = f then t else p)
        else state.redPieces
      let nextPlayer := if state.currentPlayer = Player.blue then Player.red else Player.blue
      let newMove : Move := { from_ := f, to_ := t, player := state.currentPlayer }
      let midState : GameState :=
        { currentPlayer := nextPlayer
          bluePieces := newBluePieces
          redPieces := newRedPieces
          selectedPiece := none
          status := .playing
          moveHistory := state.moveHistory ++ [newMove]
          boardStateHistory := state.boardStateHistory
          repetitionWarnings := state.repetitionWarnings }
      let pushedState := { midState with
        boardStateHistory := midState.boardStateHistory ++ [serializeBoardState midState] }
      { pushedState with status := checkWinCondition pushedState }

def detectPieceBounce (moveHistory : List Move) (player : Player) : Bool :=
  let playerMoves := moveHistory.filter (fun m => decide (m.player = player))
  match playerMoves.reverse with
  | second :: first :: _ =>
      decide (first.from_ = second.to_) && decide (first.to_ = second.from_)
  | _ => false

def detectBoardRepetition (boardStateHistory : List String) : Nat :=
  match boardStateHistory.getLast? with
  | none => 0
  | some currentState =>
      (boardStateHistory.filter (fun s => decide (s = currentState))).length

structure RepetitionCheckResult where
  isPieceBounce : Bool
  boardRepetitionCount : Nat
  shouldWarn : Bool
  shouldBlock : Bool
  shouldForfeit : Bool
deriving DecidableEq, Repr

def RepetitionWarnings.get (w : RepetitionWarnings) : Player → Nat
  | .blue => w.blue
  | .red => w.red

def RepetitionWarnings.set (w : RepetitionWarnings) : Player → Nat → RepetitionWarnings
  | .blue, n => { w with blue := n }
  | .red, n => { w with red := n }

def checkRepetition (f t : Position) (state : GameState)
    (enabledRules : List RepetitionRule) : RepetitionCheckResult :=
  let simulatedMove : Move := { from_ := f, to_ := t, player := state.currentPlayer }
  let simulatedHistory := state.moveHistory ++ [simulatedMove]
  let owner := getPieceOwner f state
  let newBluePieces :=
    if owner = some Player.blue then state.bluePieces.map (fun p => if p = f then t else p)
    else state.bluePieces
  let newRedPieces :=
    if owner = some Player.red then state.redPieces.map (fun p => if p = f then t else p)
    else state.redPieces
  let nextPlayer := if state.currentPlayer = Player.blue then Player.red else Player.blue
  let simulatedState : GameState :=
    { state with
      currentPlayer := nextPlayer
      bluePieces := newBluePieces
      redPieces := newRedPieces }
  let simulatedBoardState := serializeBoardState simulatedState
  let simulatedBoardHistory := state.boardStateHistory ++ [simulatedBoardState]
  let isPieceBounce := detectPieceBounce simulatedHistory state.currentPlayer
  let boardRepetitionCount := detectBoardRepetition simulatedBoardHistory
  let hasRepetition := isPieceBounce || decide (3 ≤ boardRepetitionCount)
  let warningCount := state.repetitionWarnings.get state.currentPlayer
  { isPieceBounce := isPieceBounce
    boardRepetitionCount := boardRepetitionCount
    shouldWarn := hasRepetition && decide (RepetitionRule.warning ∈ enabledRules)
    shouldBlock := hasRepetition && decide (RepetitionRule.block ∈ enabledRules)
    shouldForfeit := hasRepetition && decide (RepetitionRule.forfeit ∈ enabledRules)
      && decide (2 ≤ warningCount) }

/-- The source compares `makeMove`'s result with the input by JavaScript
reference equality to detect rejection; a successful `makeMove` always builds a
fresh object whose `moveHistory` is strictly longer than the input's, so
structural equality coincides with reference equality here. -/
def makeMoveWithWarning (f t : Position) (state : GameState)
    (incrementWarning : Bool) : GameState :=
  let newState := makeMove f t state
  if newState = state then state
  else if incrementWarning then
    let player := state.currentPlayer
    { newState with
      repetitionWarnings :=
        newState.repetitionWarnings.set player (state.repetitionWarnings.get player + 1) }
  else newState

def forfeitGame (state : GameState) (player : Player) : GameState :=
  { state with
    status := if player = Player.blue then .blue_forfeit else .red_forfeit
    selectedPiece := none }

/-! ## Gateway: the game:move handler

`MoveOutcome.applied s` models the handler reaching `updateGameState(roomId, s)`
followed by the `game:state` broadcast; `MoveOutcome.errorCode c` models the
handler emitting `room:error` with code `c` and returning without touching the
room's game state. Rate limiting and the socket/room bindings (which carry
I/O-level state) are outside this model: the claims about the handler quantify
over requests that have already passed those checks. -/

inductive MoveOutcome where
  | errorCode (code : String)
  | applied (newState : GameState)
deriving DecidableEq, Repr

def gameMoveHandler (f t : Position) (playerColor : Player) (state : GameState)
    (enabledRules : List RepetitionRule) : MoveOutcome :=
  if state.status ≠ GameStatus.playing then .errorCode "GAME_OVER"
  else if state.currentPlayer ≠ playerColor then .errorCode "NOT_YOUR_TURN"
  else if getPieceOwner f state ≠ some playerColor then .errorCode "NOT_YOUR_PIECE"
  else if t ∉ getValidMoves f state then .errorCode "INVALID_MOVE"
  else
    let repetitionCheck := checkRepetition f t state enabledRules
    if repetitionCheck.shouldForfeit then .applied (forfeitGame state playerColor)
    else if repetitionCheck.shouldBlock then .errorCode "MOVE_BLOCKED"
    else if repetitionCheck.shouldWarn then .applied (makeMoveWithWarning f t state true)
    else .applied (makeMoveWithWarning f t state false)

/-! ## Room manager

JavaScript `Map`s are modelled as association lists that keep insertion order
and replace in place on `set` of an existing key, exactly like `Map.set`;
`Map.size` is the list length (keys stay distinct because entries are only
added through `assocSet`). The module-level `disconnectTimers` map of pending
`setTimeout` handles is modelled as the list of currently armed timer keys. -/

def assocGet {β : Type} (l : List (String × β)) (k : String) : Option β :=
  match l with
  | [] => none
  | p :: rest => if p.1 = k then some p.2 else assocGet rest k

def assocSet {β : Type} (l : List (String × β)) (k : String) (v : β) : List (String × β) :=
  match l with
  | [] => [(k, v)]
  | p :: rest => if p.1 = k then (k, v) :: rest else p :: assocSet rest k v

def assocDelete {β : Type} (l : List (String × β)) (k : String) : List (String × β) :=
  match l with
  | [] => []
  | p :: rest => if p.1 = k then rest else p :: assocDelete rest k

structure RoomPlayer where
  id : String
  color : Player
  connected : Bool
  disconnectedAt : Option Nat
deriving DecidableEq, Repr

structure Room where
  id : String
  hostId : String
  password : Option String
  players : List RoomPlayer
  gameState : GameState
  settings : GameSettings
  createdAt : Nat
deriving DecidableEq, Repr

structure ManagerState where
  rooms : List (String × Room)
  playerRooms : List (String × String)
  disconnectTimers : List String
  maxRooms : Nat
deriving DecidableEq, Repr

def timerKey (roomId playerId : String) : String := roomId ++ ":" ++ playerId

def clearTimer (timers : List String) (key : String) : List String :=
  timers.filter (fun k => decide (k ≠ key))

def setTimer (timers : List String) (key : String) : List String :=
  clearTimer timers key ++ [key]

inductive JoinResult where
  | ok (room : Room) (color : Player) (isReconnect : Bool)
  | fail (error : String) (code : String)
deriving DecidableEq, Repr

structure DisconnectInfo where
  roomId : String
  color : Player
  roomDeleted : Bool
  isGracePeriod : Bool
deriving DecidableEq, Repr

/-- The `activePlayers` filter predicate of `createOrJoinRoom` and
`cleanupStaleRooms`: connected, or disconnected less than the grace period ago. -/
def playerActive (now : Nat) (p : RoomPlayer) : Bool :=
  if p.connected then true
  else match p.disconnectedAt with
    | some d => decide (now - d < RECONNECT_GRACE_PERIOD_MS)
    | none => false

/-- The `expiredPlayer` find predicate of `createOrJoinRoom`: not connected and
either no disconnect timestamp or the grace period has fully elapsed. -/
def playerExpired (now : Nat) (p : RoomPlayer) : Bool :=
  if p.connected then false
  else match p.disconnectedAt with
    | none => true
    | some d => decide (RECONNECT_GRACE_PERIOD_MS ≤ now - d)

/-- In-place mutation of the object found by `Array.prototype.find`: update the
first element satisfying the predicate. -/
def updateFirstBy {α : Type} (l : List α) (pred : α → Bool) (upd : α → α) : List α :=
  match l with
  | [] => []
  | x :: xs => if pred x then upd x :: xs else x :: updateFirstBy xs pred upd

/-- `Array.prototype.splice(i, 1)` at the index found by `findIndex`: remove
the first element satisfying the predicate. -/
def removeFirstBy {α : Type} (l : List α) (pred : α → Bool) : List α :=
  match l with
  | [] => []
  | x :: xs => if pred x then xs else x :: removeFirstBy xs pred

def canCreateRoom (mgr : ManagerState) : Bool :=
  decide (mgr.rooms.length < mgr.maxRooms)

/-- `RoomManager.createOrJoinRoom`. The TypeScript `password || null` argument
also maps an empty-string password to `null`; the `Option String` model writes
`none` for `undefined` and does not model the empty-string coercion (no claim
involves passwords). -/
def createOrJoinRoom (mgr : ManagerState) (now : Nat) (roomId playerId : String)
    (password : Option String) : JoinResult × ManagerState :=
  match assocGet mgr.rooms roomId with
  | some room =>
    if room.password ≠ none ∧ room.password ≠ password then
      (.fail "Incorrect password" "WRONG_PASSWORD", mgr)
    else
      match room.players.find? (fun p => decide (p.id = playerId)) with
      | some existingPlayer =>
        let updatedPlayers := updateFirstBy room.players (fun p => decide (p.id = playerId))
          (fun p => { p with connected := true, disconnectedAt := none })
        let room2 := { room with players := updatedPlayers }
        (.ok room2 existingPlayer.color true,
          { mgr with
            rooms := assocSet mgr.rooms roomId room2
            playerRooms := assocSet mgr.playerRooms playerId roomId
            disconnectTimers := clearTimer mgr.disconnectTimers (timerKey roomId playerId) })
      | none =>
        let activePlayers := room.players.filter (playerActive now)
        if 2 ≤ activePlayers.length then
          (.fail "Room is full" "ROOM_FULL", mgr)
        else
          match room.players.find? (playerExpired now) with
          | some expiredPlayer =>
            let updatedPlayers := updateFirstBy room.players (playerExpired now)
              (fun p => { p with id := playerId, connected := true, disconnectedAt := none })
            let room2 := { room with players := updatedPlayers }
            (.ok room2 expiredPlayer.color false,
              { mgr with
                rooms := assocSet mgr.rooms roomId room2
                playerRooms := assocSet (assocDelete mgr.playerRooms expiredPlayer.id)
                  playerId roomId
                disconnectTimers := clearTimer mgr.disconnectTimers
                  (timerKey roomId expiredPlayer.id) })
          | none =>
            let color := match room.players.head? with
              | some firstPlayer =>
                  if firstPlayer.color = Player.blue then Player.red else Player.blue
              | none => Player.blue
            let newPlayer : RoomPlayer :=
              { id := playerId, color := color, connected := true, disconnectedAt := none }
            let room2 := { room with players := room.players ++ [newPlayer] }
            (.ok room2 color false,
              { mgr with
                rooms := assocSet mgr.rooms roomId room2
                playerRooms := assocSet mgr.playerRooms playerId roomId })
  | none =>
    if !canCreateRoom mgr then
      (.fail "Maximum room limit reached. Please try again later." "MAX_ROOMS_REACHED", mgr)
    else
      let newPlayer : RoomPlayer :=
        { id := playerId, color := Player.blue, connected := true, disconnectedAt := none }
      let newRoom : Room :=
        { id := roomId
          hostId := playerId
          password := password
          players := [newPlayer]
          gameState := createInitialGameState
          settings := createDefaultSettings
          createdAt := now }
      (.ok newRoom Player.blue false,
        { mgr with
          rooms := assocSet mgr.rooms roomId newRoom
          playerRooms := assocSet mgr.playerRooms playerId roomId })

def markPlayerDisconnected (mgr : ManagerState) (now : Nat) (playerId : String) :
    Option DisconnectInfo × ManagerState :=
  match assocGet mgr.playerRooms playerId with
  | none => (none, mgr)
  | some roomId =>
    match assocGet mgr.rooms roomId with
    | none => (none, { mgr with playerRooms := assocDelete mgr.playerRooms playerId })
    | some room =>
      match room.players.find? (fun p => decide (p.id = playerId)) with
      | none => (none, { mgr with playerRooms := assocDelete mgr.playerRooms playerId })
      | some player =>
        let updatedPlayers := updateFirstBy room.players (fun p => decide (p.id = playerId))
          (fun p => { p with connected := false, disconnectedAt := some now })
        let room2 := { room with players := updatedPlayers }
        (some { roomId := roomId, color := player.color, roomDeleted := false,
                isGracePeriod := true },
          { mgr with
            rooms := assocSet mgr.rooms roomId room2
            disconnectTimers := setTimer mgr.disconnectTimers (timerKey roomId playerId) })

def finalizeDisconnect (mgr : ManagerState) (playerId : String) : ManagerState :=
  match assocGet mgr.playerRooms playerId with
  | none => mgr
  | some roomId =>
    match assocGet mgr.rooms roomId with
    | none => { mgr with playerRooms := assocDelete mgr.playerRooms playerId }
    | some room =>
      if (room.players.find? (fun p => decide (p.id = playerId))).isNone then
        { mgr with playerRooms := assocDelete mgr.playerRooms playerId }
      else
        let remaining := removeFirstBy room.players (fun p => decide (p.id = playerId))
        let mgr2 := { mgr with playerRooms := assocDelete mgr.playerRooms playerId }
        if remaining.isEmpty then
          { mgr2 with rooms := assocDelete mgr2.rooms roomId }
        else
          let connectedPlayers := remaining.filter (fun p => p.connected)
          let newHostId := match connectedPlayers.head? with
            | some firstConnected =>
                if room.hostId = playerId then firstConnected.id else room.hostId
            | none => room.hostId
          let room2 := { room with players := remaining, hostId := newHostId }
          { mgr2 with rooms := assocSet mgr2.rooms roomId room2 }

/-- The `setTimeout` callback armed by `markPlayerDisconnected`: when its key is
still armed it removes itself and finalizes the disconnect. -/
def fireDisconnectTimer (mgr : ManagerState) (roomId playerId : String) : ManagerState :=
  if timerKey roomId playerId ∈ mgr.disconnectTimers then
    finalizeDisconnect
      { mgr with disconnectTimers := clearTimer mgr.disconnectTimers (timerKey roomId playerId) }
      playerId
  else mgr

def leaveRoom (mgr : ManagerState) (playerId : String) :
    Option DisconnectInfo × ManagerState :=
  match assocGet mgr.playerRooms playerId with
  | none => (none, mgr)
  | some roomId =>
    let mgr1 := { mgr with
      disconnectTimers := clearTimer mgr.disconnectTimers (timerKey roomId playerId) }
    match assocGet mgr1.rooms roomId with
    | none => (none, { mgr1 with playerRooms := assocDelete mgr1.playerRooms playerId })
    | some room =>
      match room.players.find? (fun p => decide (p.id = playerId)) with
      | none => (none, { mgr1 with playerRooms := assocDelete mgr1.playerRooms playerId })
      | some player =>
        let remaining := removeFirstBy room.players (fun p => decide (p.id = playerId))
        let mgr2 := { mgr1 with playerRooms := assocDelete mgr1.playerRooms playerId }
        if remaining.isEmpty then
          (some { roomId := roomId, color := player.color, roomDeleted := true,
                  isGracePeriod := false },
            { mgr2 with rooms := assocDelete mgr2.rooms roomId })
        else
          let connectedPlayers := remaining.filter (fun p => p.connected)
          let newHostId := match connectedPlayers.head? with
            | some firstConnected =>
                if room.hostId = playerId then firstConnected.id else room.hostId
            | none => room.hostId
          let room2 := { room with players := remaining, hostId := newHostId }
          (some { roomId := roomId, color := player.color, roomDeleted := false,
                  isGracePeriod := false },
            { mgr2 with rooms := assocSet mgr2.rooms roomId room2 })

def updateGameState (mgr : ManagerState) (roomId : String) (gameState : GameState) :
    Bool × ManagerState :=
  match assocGet mgr.rooms roomId with
  | none => (false, mgr)
  | some room =>
      (true, { mgr with rooms := assocSet mgr.rooms roomId ({ room with gameState := gameState }) })

def updateSettings (mgr : ManagerState) (roomId playerId : String)
    (settings : GameSettings) : Bool × ManagerState :=
  match assocGet mgr.rooms roomId with
  | none => (false, mgr)
  | some room =>
    if room.hostId ≠ playerId then (false, mgr)
    else (true, { mgr with rooms := assocSet mgr.rooms roomId ({ room with settings := settings }) })

def resetGame (mgr : ManagerState) (roomId playerId : String) :
    Option GameState × ManagerState :=
  match assocGet mgr.rooms roomId with
  | none => (none, mgr)
  | some room =>
    if room.hostId ≠ playerId then (none, mgr)
    else
      let room2 := { room with gameState := createInitialGameState }
      (some createInitialGameState,
        { mgr with rooms := assocSet mgr.rooms roomId room2 })

def isHost (mgr : ManagerState) (roomId playerId : String) : Bool :=
  match assocGet mgr.rooms roomId with
  | some room => decide (room.hostId = playerId)
  | none => false

/-! ## Rate limiter and the room:join handler

Only the `lastRoomCreation` component of the per-IP record is modelled: it is
the only field `checkRoomCreation` reads or writes. A missing record has the
`getOrCreateIpData` default `lastRoomCreation = 0`. -/

def ROOM_CREATION_COOLDOWN_MS : Nat := 30000

structure RateLimiterState where
  lastRoomCreation : List (String × Nat)
deriving DecidableEq, Repr

def checkRoomCreation (lim : RateLimiterState) (now : Nat) (ip : String)
    (isNewRoom : Bool) : Bool × RateLimiterState :=
  if !isNewRoom then (true, lim)
  else
    let last := (assocGet lim.lastRoomCreation ip).getD 0
    let lim0 : RateLimiterState :=
      { lastRoomCreation := assocSet lim.lastRoomCreation ip last }
    if now - last < ROOM_CREATION_COOLDOWN_MS then (false, lim0)
    else (true, { lastRoomCreation := assocSet lim0.lastRoomCreation ip now })

inductive JoinOutcome where
  | errorCode (code : String)
  | passwordRequired
  | joined (color : Player) (isReconnect : Bool)
deriving DecidableEq, Repr

/-- The `room:join` socket handler: leave any previous room for the same
`playerId`, signal `room:password_required` for a password-protected room when
no password is supplied, consume the per-origin room-creation cooldown at
admission time when (and only when) the target room does not exist, then
delegate to `createOrJoinRoom`. The socket-id bookkeeping and the emitted
snapshot are transport concerns left out of the model. -/
def roomJoinHandler (lim : RateLimiterState) (mgr : ManagerState) (now : Nat)
    (roomId playerId : String) (password : Option String) (clientIp : String) :
    JoinOutcome × RateLimiterState × ManagerState :=
  let mgr0 :=
    match assocGet mgr.playerRooms playerId with
    | some existingRoom => if existingRoom ≠ roomId then (leaveRoom mgr playerId).2 else mgr
    | none => mgr
  match assocGet mgr0.rooms roomId with
  | some room =>
    if room.password ≠ none ∧ password = none then (.passwordRequired, lim, mgr0)
    else
      match createOrJoinRoom mgr0 now roomId playerId password with
      | (.ok _ color isReconnect, mgr1) => (.joined color isReconnect, lim, mgr1)
      | (.fail _ code, mgr1) => (.errorCode code, lim, mgr1)
  | none =>
    let cooldownCheck := checkRoomCreation lim now clientIp true
    if !cooldownCheck.1 then (.errorCode "RATE_LIMIT_ROOM_COOLDOWN", cooldownCheck.2, mgr0)
    else
      match createOrJoinRoom mgr0 now roomId playerId password with
      | (.ok _ color isReconnect, mgr1) => (.joined color isReconnect, cooldownCheck.2, mgr1)
      | (.fail _ code, mgr1) => (.errorCode code, cooldownCheck.2, mgr1)

/-- The room-level part of the `game:move` handler: look the room up, run the
validations and the repetition dispatch on its game state, and persist the
resulting state through `updateGameState` exactly when a new state is
produced (`.errorCode` outcomes return before `updateGameState` is reached,
leaving the manager untouched). -/
def roomMoveHandler (mgr : ManagerState) (roomId : String) (playerColor : Player)
    (f t : Position) : MoveOutcome × ManagerState :=
  match assocGet mgr.rooms roomId with
  | none => (.errorCode "ROOM_NOT_FOUND", mgr)
  | some room =>
    match gameMoveHandler f t playerColor room.gameState room.settings.enabledRules with
    | .errorCode c => (.errorCode c, mgr)
    | .applied newState => (.applied newState, (updateGameState mgr roomId newState).2)

/-- The success branch of `makeMove`, with `owner` replaced by
`state.currentPlayer` (they are equal whenever the branch is reached). -/
def moveResult (f t : Position) (state : GameState) : GameState :=
  let newBluePieces :=
    if state.currentPlayer = Player.blue then
      state.bluePieces.map (fun p => if p = f then t else p)
    else state.bluePieces
  let newRedPieces :=
    if state.currentPlayer = Player.red then
      state.redPieces.map (fun p => if p = f then t else p)
    else state.redPieces
  let nextPlayer := if state.currentPlayer = Player.blue then Player.red else Player.blue
  let newMove : Move := { from_ := f, to_ := t, player := state.currentPlayer }
  let midState : GameState :=
    { currentPlayer := nextPlayer
      bluePieces := newBluePieces
      redPieces := newRedPieces
      selectedPiece := none
      status := .playing
      moveHistory := state.moveHistory ++ [newMove]
      boardStateHistory := state.boardStateHistory
      repetitionWarnings := state.repetitionWarnings }
  let pushedState := { midState with
    boardStateHistory := midState.boardStateHistory ++ [serializeBoardState midState] }
  { pushedState with status := checkWinCondition pushedState }

def substPos (f t : Position) (l : List Position) : List Position :=
  l.map (fun p => if p = f then t else p)

/-- For every reachable state: exactly three pieces per side and no cell ever
holds two pieces. -/
def occupancyInv (s : GameState) : Prop :=
  s.bluePieces.length = 3 ∧ s.redPieces.length = 3 ∧
    (s.bluePieces ++ s.redPieces).Nodup

/-- The states reachable through the state-mutating operations of the rules
engine, starting from the initial state. -/
inductive Reachable : GameState → Prop where
  | init : Reachable createInitialGameState
  | move (s : GameState) (f t : Position) : Reachable s → Reachable (makeMove f t s)
  | moveWithWarning (s : GameState) (f t : Position) (w : Bool) :
      Reachable s → Reachable (makeMoveWithWarning f t s w)
  | forfeit (s : GameState) (p : Player) : Reachable s → Reachable (forfeitGame s p)

/-- A concrete mid-game state (after L2→CL and R2→CR) in which `CL → L2` is a
piece bounce for blue; used as a witness input. -/
def wBounceState : GameState :=
  makeMoveWithWarning .R2 .CR (makeMoveWithWarning .L2 .CL createInitialGameState false) false

/-- A concrete room whose repetition rule set is `[block]`, holding
`wBounceState`; used as a witness input. -/
def wBlockRoom : Room :=
  { id := "r", hostId := "a", password := none
    players := [{ id := "a", color := .blue, connected := true, disconnectedAt := none },
                { id := "b", color := .red, connected := true, disconnectedAt := none }]
    gameState := wBounceState
    settings := { enabledRules := [.block], blitzEnabled := false, blitzTimeLimit := 10 }
    createdAt := 0 }

/-- A concrete manager owning `wBlockRoom`; used as a witness input. -/
def wBlockMgr : ManagerState :=
  { rooms := [("r", wBlockRoom)], playerRooms := [("a", "r"), ("b", "r")]
    disconnectTimers := [], maxRooms := 100 }

/-- A room with two connected seats: `p1` as blue host, `p2` as red; a
representative scenario state for the reconnect/repossession claims. -/
def twoSeatRoom (roomId p1 p2 : String) (gs : GameState) (st : GameSettings)
    (tc : Nat) : Room :=
  { id := roomId, hostId := p1, password := none
    players := [{ id := p1, color := Player.blue, connected := true, disconnectedAt := none },
                { id := p2, color := Player.red, connected := true, disconnectedAt := none }]
    gameState := gs, settings := st, createdAt := tc }

/-- A manager owning exactly the room `twoSeatRoom roomId p1 p2 gs st tc`. -/
def twoSeatMgr (roomId p1 p2 : String) (gs : GameState) (st : GameSettings)
    (tc mrooms : Nat) : ManagerState :=
  { rooms := [(roomId, twoSeatRoom roomId p1 p2 gs st tc)]
    playerRooms := [(p1, roomId), (p2, roomId)]
    disconnectTimers := [], maxRooms := mrooms }

/-- A room whose red seat `p2` is disconnected (timestamp `td`) while blue
host `p1` is connected; scenario state for the host-leave claim. -/
def graceRoom (roomId p1 p2 : String) (gs : GameState) (st : GameSettings)
    (tc td : Nat) : Room :=
  { id := roomId, hostId := p1, password := none
    players := [{ id := p1, color := Player.blue, connected := true, disconnectedAt := none },
                { id := p2, color := Player.red, connected := false, disconnectedAt := some td }]
    gameState := gs, settings := st, createdAt := tc }

/-- A manager owning exactly the room `graceRoom roomId p1 p2 gs st tc td`. -/
def graceMgr (roomId p1 p2 : String) (gs : GameState) (st : GameSettings)
    (tc td mrooms : Nat) : ManagerState :=
  { rooms := [(roomId, graceRoom roomId p1 p2 gs st tc td)]
    playerRooms := [(p1, roomId), (p2, roomId)]
    disconnectTimers := [], maxRooms := mrooms }

/-! ## Basic lemmas about the rules engine -/

theorem mm_invalid (f t : Position) (s : GameState)
    (h : getPieceOwner f s ≠ some s.currentPlayer ∨ t ∉ getValidMoves f s) :
    makeMove f t s = s := by
  unfold makeMove
  split
  · rfl
  · rename_i owner hown
    split
    · rfl
    · rename_i hne
      split
      · rfl
      · exfalso
        rename_i hmem
        rw [not_not] at hne hmem
        rcases h with h | h
        · exact h (by rw [hown, hne])
        · exact h hmem

theorem mm_valid (f t : Position) (s : GameState)
    (hown : getPieceOwner f s = some s.currentPlayer)
    (hval : t ∈ getValidMoves f s) :
    makeMove f t s = moveResult f t s := by
  unfold makeMove moveResult
  split
  · rename_i hnone
    rw [hnone] at hown
    exact absurd hown (by simp)
  · rename_i owner hown2
    rw [hown2] at hown
    injection hown with hoe
    subst hoe
    rw [if_neg (fun hne => hne rfl), if_neg (not_not_intro hval)]

theorem moveResult_bluePieces (f t : Position) (s : GameState) :
    (moveResult f t s).bluePieces =
      if s.currentPlayer = Player.blue then
        s.bluePieces.map (fun p => if p = f then t else p)
      else s.bluePieces := rfl

theorem moveResult_redPieces (f t : Position) (s : GameState) :
    (moveResult f t s).redPieces =
      if s.currentPlayer = Player.red then
        s.redPieces.map (fun p => if p = f then t else p)
      else s.redPieces := rfl

theorem moveResult_moveHistory (f t : Position) (s : GameState) :
    (moveResult f t s).moveHistory =
      s.moveHistory ++ [{ from_ := f, to_ := t, player := s.currentPlayer }] := rfl

theorem mm_valid_ne (f t : Position) (s : GameState)
    (hown : getPieceOwner f s = some s.currentPlayer)
    (hval : t ∈ getValidMoves f s) :
    makeMove f t s ≠ s := by
  rw [mm_valid f t s hown hval]
  intro heq
  have hlen := congrArg (fun st => st.moveHistory.length) heq
  simp only [moveResult_moveHistory, List.length_append, List.length_cons,
    List.length_nil] at hlen
  omega

theorem mmw_false (f t : Position) (s : GameState) :
    makeMoveWithWarning f t s false = makeMove f t s := by
  by_cases h : makeMove f t s = s <;> simp [makeMoveWithWarning, h]

theorem mmw_true_valid (f t : Position) (s : GameState)
    (hown : getPieceOwner f s = some s.currentPlayer)
    (hval : t ∈ getValidMoves f s) :
    makeMoveWithWarning f t s true =
      { makeMove f t s with
        repetitionWarnings := (makeMove f t s).repetitionWarnings.set s.currentPlayer
          (s.repetitionWarnings.get s.currentPlayer + 1) } := by
  rw [makeMoveWithWarning, if_neg (mm_valid_ne f t s hown hval)]
  rfl

theorem warnings_get_set (w : RepetitionWarnings) (p : Player) (n : Nat) :
    (w.set p n).get p = n := by
  cases p <;> rfl

theorem getPieceOwner_blue_iff (f : Position) (s : GameState) :
    getPieceOwner f s = some Player.blue ↔ f ∈ s.bluePieces := by
  by_cases hb : f ∈ s.bluePieces
  · simp [getPieceOwner, hb]
  · by_cases hr : f ∈ s.redPieces <;> simp [getPieceOwner, hb, hr]

theorem getPieceOwner_red_iff (f : Position) (s : GameState) :
    getPieceOwner f s = some Player.red ↔ f ∉ s.bluePieces ∧ f ∈ s.redPieces := by
  by_cases hb : f ∈ s.bluePieces
  · simp [getPieceOwner, hb]
  · by_cases hr : f ∈ s.redPieces <;> simp [getPieceOwner, hb, hr]

theorem valid_unoccupied (f t : Position) (s : GameState)
    (hval : t ∈ getValidMoves f s) : t ∉ s.bluePieces ∧ t ∉ s.redPieces := by
  have := (List.mem_filter.1 hval).2
  simp only [isPositionOccupied, getAllPiecePositions, Bool.not_eq_eq_eq_not,
    Bool.not_true, decide_eq_false_iff_not, List.mem_append] at this
  exact ⟨fun hb => this (Or.inl hb), fun hr => this (Or.inr hr)⟩

/-! ## The occupancy invariant (C1 machinery) -/

theorem substPos_length (f t : Position) (l : List Position) :
    (substPos f t l).length = l.length := List.length_map l _

theorem mem_substPos (f t : Position) (l : List Position) (a : Position)
    (ha : a ∈ substPos f t l) : a = t ∨ a ∈ l := by
  rcases List.mem_map.1 ha with ⟨x, hx, hxa⟩
  by_cases hxf : x = f
  · left; rw [← hxa, if_pos hxf]
  · right; rw [← hxa, if_neg hxf]; exact hx

theorem substPos_nodup (f t : Position) (l : List Position)
    (hnd : l.Nodup) (ht : t ∉ l) : (substPos f t l).Nodup := by
  apply hnd.map_on
  intro x hx y hy hxy
  by_cases hxf : x = f <;> by_cases hyf : y = f
  · rw [hxf, hyf]
  · rw [if_pos hxf, if_neg hyf] at hxy
    exact absurd (hxy ▸ hy) ht
  · rw [if_neg hxf, if_pos hyf] at hxy
    exact absurd (hxy ▸ hx) ht
  · rwa [if_neg hxf, if_neg hyf] at hxy

theorem occupancyInv_makeMove (f t : Position) (s : GameState)
    (h : occupancyInv s) : occupancyInv (makeMove f t s) := by
  by_cases hown : getPieceOwner f s = some s.currentPlayer
  · by_cases hval : t ∈ getValidMoves f s
    · rw [mm_valid f t s hown hval]
      obtain ⟨hbl, hrl, hnd⟩ := h
      obtain ⟨hbnd, hrnd, hdisj⟩ := List.nodup_append.1 hnd
      obtain ⟨htb, htr⟩ := valid_unoccupied f t s hval
      unfold occupancyInv
      rw [moveResult_bluePieces, moveResult_redPieces]
      cases hcp : s.currentPlayer with
      | blue =>
        rw [if_pos rfl, if_neg (show ¬ (Player.blue = Player.red) by decide)]
        refine ⟨?_, hrl, List.nodup_append.2 ⟨?_, hrnd, ?_⟩⟩
        · rw [List.length_map]; exact hbl
        · exact substPos_nodup f t s.bluePieces hbnd htb
        · intro a ha har
          rcases mem_substPos f t s.bluePieces a ha with rfl | hab
          · exact htr har
          · exact hdisj hab har
      | red =>
        rw [if_neg (show ¬ (Player.red = Player.blue) by decide), if_pos rfl]
        refine ⟨hbl, ?_, List.nodup_append.2 ⟨hbnd, ?_, ?_⟩⟩
        · rw [List.length_map]; exact hrl
        · exact substPos_nodup f t s.redPieces hrnd htr
        · intro a hab har
          rcases mem_substPos f t s.redPieces a har with rfl | har'
          · exact htb hab
          · exact hdisj hab har'
    · rw [mm_invalid f t s (Or.inr hval)]; exact h
  · rw [mm_invalid f t s (Or.inl hown)]; exact h

theorem occupancyInv_makeMoveWithWarning (f t : Position) (s : GameState) (w : Bool)
    (h : occupancyInv s) : occupancyInv (makeMoveWithWarning f t s w) := by
  have hm := occupancyInv_makeMove f t s h
  unfold makeMoveWithWarning
  by_cases he : makeMove f t s = s
  · rw [if_pos he]; exact h
  · rw [if_neg he]
    cases w
    · simpa using hm
    · simp only [if_true]
      exact hm

theorem occupancyInv_forfeitGame (s : GameState) (p : Player)
    (h : occupancyInv s) : occupancyInv (forfeitGame s p) := h

/-! ## Serialization lemmas (C5 machinery) -/

theorem sortPositions_perm_eq {l1 l2 : List Position} (h : l1.Perm l2) :
    sortPositions l1 = sortPositions l2 :=
  List.eq_of_perm_of_sorted
    ((List.perm_insertionSort posLE l1).trans (h.trans (List.perm_insertionSort posLE l2).symm))
    (List.sorted_insertionSort posLE l1) (List.sorted_insertionSort posLE l2)

theorem serializeBoardState_congr {s1 s2 : GameState}
    (hp : s1.currentPlayer = s2.currentPlayer)
    (hb : s1.bluePieces.Perm s2.bluePieces) (hr : s1.redPieces.Perm s2.redPieces) :
    serializeBoardState s1 = serializeBoardState s2 := by
  unfold serializeBoardState
  rw [hp, sortPositions_perm_eq hb, sortPositions_perm_eq hr]

theorem moveResult_bsh (f t : Position) (s : GameState) :
    (moveResult f t s).boardStateHistory =
      s.boardStateHistory ++ [serializeBoardState
        { moveResult f t s with
          boardStateHistory := s.boardStateHistory
          status := GameStatus.playing }] := rfl

theorem makeMove_board_append (f t : Position) (s : GameState)
    (hown : getPieceOwner f s = some s.currentPlayer)
    (hval : t ∈ getValidMoves f s) :
    (makeMove f t s).boardStateHistory =
      s.boardStateHistory ++ [serializeBoardState (makeMove f t s)] := by
  rw [mm_valid f t s hown hval, moveResult_bsh]
  have hser : serializeBoardState
      { moveResult f t s with
        boardStateHistory := s.boardStateHistory
        status := GameStatus.playing } = serializeBoardState (moveResult f t s) :=
    serializeBoardState_congr rfl (List.Perm.refl _) (List.Perm.refl _)
  rw [hser]

/-! ## Repetition-flag and gateway lemmas (C4/C8 machinery) -/

theorem shouldWarn_eq (f t : Position) (s : GameState) (rules : List RepetitionRule) :
    (checkRepetition f t s rules).shouldWarn =
      (((checkRepetition f t s rules).isPieceBounce ||
          decide (3 ≤ (checkRepetition f t s rules).boardRepetitionCount)) &&
        decide (RepetitionRule.warning ∈ rules)) := rfl

theorem shouldBlock_eq (f t : Position) (s : GameState) (rules : List RepetitionRule) :
    (checkRepetition f t s rules).shouldBlock =
      (((checkRepetition f t s rules).isPieceBounce ||
          decide (3 ≤ (checkRepetition f t s rules).boardRepetitionCount)) &&
        decide (RepetitionRule.block ∈ rules)) := rfl

theorem shouldForfeit_eq (f t : Position) (s : GameState) (rules : List RepetitionRule) :
    (checkRepetition f t s rules).shouldForfeit =
      (((checkRepetition f t s rules).isPieceBounce ||
          decide (3 ≤ (checkRepetition f t s rules).boardRepetitionCount)) &&
        decide (RepetitionRule.forfeit ∈ rules) &&
        decide (2 ≤ s.repetitionWarnings.get s.currentPlayer)) := rfl

theorem hasRep_true {f t : Position} {s : GameState} {rules : List RepetitionRule}
    (hrep : (checkRepetition f t s rules).isPieceBounce = true ∨
      3 ≤ (checkRepetition f t s rules).boardRepetitionCount) :
    ((checkRepetition f t s rules).isPieceBounce ||
      decide (3 ≤ (checkRepetition f t s rules).boardRepetitionCount)) = true := by
  rcases hrep with h | h
  · rw [h, Bool.true_or]
  · rw [decide_eq_true h, Bool.or_true]

theorem checkWinCondition_not_forfeit (s : GameState) :
    checkWinCondition s ≠ .blue_forfeit ∧ checkWinCondition s ≠ .red_forfeit := by
  simp only [checkWinCondition]
  split_ifs <;> simp

theorem moveResult_status_eq (f t : Position) (s : GameState) :
    ∃ u, (moveResult f t s).status = checkWinCondition u := ⟨_, rfl⟩

theorem mmw_status (f t : Position) (s : GameState) (w : Bool)
    (hown : getPieceOwner f s = some s.currentPlayer)
    (hval : t ∈ getValidMoves f s) :
    (makeMoveWithWarning f t s w).status = (moveResult f t s).status := by
  cases w
  · rw [mmw_false, mm_valid f t s hown hval]
  · rw [mmw_true_valid f t s hown hval, mm_valid f t s hown hval]

theorem mmw_ne_forfeitGame (f t : Position) (s : GameState) (w : Bool) (pc : Player)
    (hown : getPieceOwner f s = some s.currentPlayer)
    (hval : t ∈ getValidMoves f s) :
    makeMoveWithWarning f t s w ≠ forfeitGame s pc := by
  intro heq
  have hst := congrArg GameState.status heq
  rw [mmw_status f t s w hown hval] at hst
  obtain ⟨u, hu⟩ := moveResult_status_eq f t s
  cases pc with
  | blue =>
    rw [show (forfeitGame s Player.blue).status = GameStatus.blue_forfeit from rfl] at hst
    exact (checkWinCondition_not_forfeit u).1 (hu.symm.trans hst)
  | red =>
    rw [show (forfeitGame s Player.red).status = GameStatus.red_forfeit from rfl] at hst
    exact (checkWinCondition_not_forfeit u).2 (hu.symm.trans hst)

theorem gameMoveHandler_valid (f t : Position) (pc : Player) (s : GameState)
    (rules : List RepetitionRule)
    (hst : s.status = .playing) (hpc : s.currentPlayer = pc)
    (hown : getPieceOwner f s = some pc) (hval : t ∈ getValidMoves f s) :
    gameMoveHandler f t pc s rules =
      (if (checkRepetition f t s rules).shouldForfeit then .applied (forfeitGame s pc)
       else if (checkRepetition f t s rules).shouldBlock then .errorCode "MOVE_BLOCKED"
       else if (checkRepetition f t s rules).shouldWarn then
         .applied (makeMoveWithWarning f t s true)
       else .applied (makeMoveWithWarning f t s false)) := by
  unfold gameMoveHandler
  rw [if_neg (fun hne => hne hst), if_neg (fun hne => hne hpc),
    if_neg (fun hne => hne hown), if_neg (not_not_intro hval)]

/-! ## Association-list lemmas (room-manager machinery) -/

theorem assocGet_set_self {β : Type} (l : List (String × β)) (k : String) (v : β) :
    assocGet (assocSet l k v) k = some v := by
  induction l with
  | nil => simp [assocSet, assocGet]
  | cons p rest ih =>
    by_cases h : p.1 = k
    · simp [assocSet, h, assocGet]
    · simp [assocSet, h, assocGet, ih]

/-! ## Claim theorems -/

/-- C1: every state reachable from the initial state through `makeMove`,
`makeMoveWithWarning` and `forfeitGame` has exactly 3 blue pieces, exactly 3
red pieces, and the concatenation of the two piece lists consists of 6
distinct positions (no duplicates within a list, no overlap between them). -/
theorem crossway_c1 (s : GameState) (h : Reachable s) :
    s.bluePieces.length = 3 ∧ s.redPieces.length = 3 ∧
      (s.bluePieces ++ s.redPieces).Nodup ∧
      (s.bluePieces ++ s.redPieces).length = 6 := by
  have hinv : occupancyInv s := by
    induction h with
    | init => exact ⟨rfl, rfl, by decide⟩
    | move s f t _ ih => exact occupancyInv_makeMove f t s ih
    | moveWithWarning s f t w _ ih => exact occupancyInv_makeMoveWithWarning f t s w ih
    | forfeit s p _ ih => exact occupancyInv_forfeitGame s p ih
  obtain ⟨h1, h2, h3⟩ := hinv
  refine ⟨h1, h2, h3, ?_⟩
  rw [List.length_append, h1, h2]

/-- C1 witness: the state after the opening move `L2 → CL` is reachable and
satisfies the occupancy invariant. -/
theorem crossway_c1_witness :
    Reachable (makeMove .L2 .CL createInitialGameState) ∧
      ((makeMove .L2 .CL createInitialGameState).bluePieces.length = 3 ∧
        (makeMove .L2 .CL createInitialGameState).redPieces.length = 3 ∧
        ((makeMove .L2 .CL createInitialGameState).bluePieces ++
          (makeMove .L2 .CL createInitialGameState).redPieces).Nodup ∧
        ((makeMove .L2 .CL createInitialGameState).bluePieces ++
          (makeMove .L2 .CL createInitialGameState).redPieces).length = 6) :=
  ⟨Reachable.move _ _ _ Reachable.init,
    crossway_c1 _ (Reachable.move _ _ _ Reachable.init)⟩

/-- C2: `checkWinCondition` checks, in order: all blue pieces in the red home
(blue wins, regardless of anything else), all red pieces in the blue home
(red wins), the player to move having no legal move (the other player wins),
and otherwise returns `playing`. -/
theorem crossway_c2 (s : GameState) :
    ((∀ p ∈ s.bluePieces, p ∈ RED_HOME) → checkWinCondition s = .blue_wins) ∧
    (¬ (∀ p ∈ s.bluePieces, p ∈ RED_HOME) → (∀ p ∈ s.redPieces, p ∈ BLUE_HOME) →
      checkWinCondition s = .red_wins) ∧
    (¬ (∀ p ∈ s.bluePieces, p ∈ RED_HOME) → ¬ (∀ p ∈ s.redPieces, p ∈ BLUE_HOME) →
      canPlayerMove s.currentPlayer s = false →
      checkWinCondition s =
        (if s.currentPlayer = Player.blue then .red_wins else .blue_wins)) ∧
    (¬ (∀ p ∈ s.bluePieces, p ∈ RED_HOME) → ¬ (∀ p ∈ s.redPieces, p ∈ BLUE_HOME) →
      canPlayerMove s.currentPlayer s = true → checkWinCondition s = .playing) := by
  have hb : (s.bluePieces.all (fun pos => decide (pos ∈ RED_HOME)) = true) ↔
      (∀ p ∈ s.bluePieces, p ∈ RED_HOME) := by simp [List.all_eq_true]
  have hr : (s.redPieces.all (fun pos => decide (pos ∈ BLUE_HOME)) = true) ↔
      (∀ p ∈ s.redPieces, p ∈ BLUE_HOME) := by simp [List.all_eq_true]
  refine ⟨?_, ?_, ?_, ?_⟩
  · intro hA
    simp only [checkWinCondition]
    rw [if_pos (hb.2 hA)]
  · intro hA hB
    simp only [checkWinCondition]
    rw [if_neg (fun h => hA (hb.1 h)), if_pos (hr.2 hB)]
  · intro hA hB hc
    simp only [checkWinCondition]
    rw [if_neg (fun h => hA (hb.1 h)), if_neg (fun h => hB (hr.1 h)), hc]
    simp
  · intro hA hB hc
    simp only [checkWinCondition]
    rw [if_neg (fun h => hA (hb.1 h)), if_neg (fun h => hB (hr.1 h)), hc]
    simp

/-- C2 witness: a state with all three blue pieces on the red home cells is
`blue_wins`; in it red has legal moves, so the priority over the stalemate
check is exercised. -/
theorem crossway_c2_witness :
    checkWinCondition
      { createInitialGameState with
        bluePieces := [.R1, .R2, .R3], redPieces := [.L1, .L2, .L3] } = .blue_wins :=
  (crossway_c2 _).1 (by decide)

/-- C3: `makeMove` is a no-op returning the input state unchanged whenever
`from` is not occupied by a piece of the current player, or `to` is not an
unoccupied neighbour of `from` (i.e. not in `getValidMoves from state`). -/
theorem crossway_c3 (f t : Position) (s : GameState)
    (h : getPieceOwner f s ≠ some s.currentPlayer ∨ t ∉ getValidMoves f s) :
    makeMove f t s = s :=
  mm_invalid f t s h

/-- C3 witness: moving red's piece R1 while it is blue's turn leaves the
initial state unchanged. -/
theorem crossway_c3_witness :
    makeMove .R1 .R2 createInitialGameState = createInitialGameState :=
  crossway_c3 .R1 .R2 createInitialGameState (Or.inl (by decide))

/-- C4 counterexample: with `enabledRules = [forfeit]` (forfeit enabled,
warning disabled) blue produces three piece-bounce repetition events through
the gateway pipeline (moves 3, 5 and 7 of the alternating sequence
L2→CL, R2→CR, CL→L2, CR→R2, L2→CL, R2→CR, CL→L2); each passes validation, yet
the third event still applies as a plain move with the game `playing` and
blue's warning counter at 0 — no forfeiture, contradicting the claim that the
third repetition event with forfeit enabled triggers forfeiture. -/
theorem crossway_c4_counterexample :
    (let rules : List RepetitionRule := [.forfeit]
     let s0 := createInitialGameState
     let s1 := makeMoveWithWarning .L2 .CL s0 false
     let s2 := makeMoveWithWarning .R2 .CR s1 false
     let s3 := makeMoveWithWarning .CL .L2 s2 false
     let s4 := makeMoveWithWarning .CR .R2 s3 false
     let s5 := makeMoveWithWarning .L2 .CL s4 false
     let s6 := makeMoveWithWarning .R2 .CR s5 false
     gameMoveHandler .L2 .CL .blue s0 rules = .applied s1 ∧
     gameMoveHandler .R2 .CR .red s1 rules = .applied s2 ∧
     (checkRepetition .CL .L2 s2 rules).isPieceBounce = true ∧
     gameMoveHandler .CL .L2 .blue s2 rules = .applied s3 ∧
     gameMoveHandler .CR .R2 .red s3 rules = .applied s4 ∧
     (checkRepetition .L2 .CL s4 rules).isPieceBounce = true ∧
     gameMoveHandler .L2 .CL .blue s4 rules = .applied s5 ∧
     gameMoveHandler .R2 .CR .red s5 rules = .applied s6 ∧
     (checkRepetition .CL .L2 s6 rules).isPieceBounce = true ∧
     s6.repetitionWarnings = { blue := 0, red := 0 } ∧
     (checkRepetition .CL .L2 s6 rules).shouldForfeit = false ∧
     gameMoveHandler .CL .L2 .blue s6 rules =
       .applied (makeMoveWithWarning .CL .L2 s6 false) ∧
     (makeMoveWithWarning .CL .L2 s6 false).status = .playing) := by
  decide

/-- C4 (amended): `checkRepetition` reports `shouldForfeit` exactly when the
simulated move is a repetition (piece bounce or board configuration seen at
least 3 times), the forfeit rule is enabled, and the mover's existing warning
counter is already ≥ 2. Through the gateway pipeline, a repetition event with
forfeit enabled forfeits exactly when that counter is ≥ 2; since the gateway
increments the counter only on `shouldWarn` moves, the "third repetition event
forfeits" behaviour requires the warning rule to be enabled as well (each of
the first two events then warns and increments the counter by one); with
warning disabled the counter never advances and forfeiture never triggers. -/
theorem crossway_c4 (f t : Position) (s : GameState) (rules : List RepetitionRule)
    (pc : Player)
    (hst : s.status = .playing) (hpc : s.currentPlayer = pc)
    (hown : getPieceOwner f s = some pc) (hval : t ∈ getValidMoves f s)
    (hrep : (checkRepetition f t s rules).isPieceBounce = true ∨
      3 ≤ (checkRepetition f t s rules).boardRepetitionCount)
    (hforf : RepetitionRule.forfeit ∈ rules) :
    (∀ (f' t' : Position) (s' : GameState) (rules' : List RepetitionRule),
      (checkRepetition f' t' s' rules').shouldForfeit = true ↔
        (((checkRepetition f' t' s' rules').isPieceBounce = true ∨
            3 ≤ (checkRepetition f' t' s' rules').boardRepetitionCount) ∧
          RepetitionRule.forfeit ∈ rules' ∧
          2 ≤ s'.repetitionWarnings.get s'.currentPlayer)) ∧
    (2 ≤ s.repetitionWarnings.get pc →
      gameMoveHandler f t pc s rules = .applied (forfeitGame s pc)) ∧
    (s.repetitionWarnings.get pc < 2 →
      gameMoveHandler f t pc s rules ≠ .applied (forfeitGame s pc) ∧
      (RepetitionRule.warning ∈ rules → RepetitionRule.block ∉ rules →
        gameMoveHandler f t pc s rules = .applied (makeMoveWithWarning f t s true) ∧
        (makeMoveWithWarning f t s true).repetitionWarnings.get pc =
          s.repetitionWarnings.get pc + 1)) := by
  have hown' : getPieceOwner f s = some s.currentPlayer := by rw [hpc]; exact hown
  have hval' : t ∈ getValidMoves f s := hval
  refine ⟨?_, ?_, ?_⟩
  · intro f' t' s' rules'
    rw [shouldForfeit_eq]
    simp only [Bool.and_eq_true, Bool.or_eq_true, decide_eq_true_eq, and_assoc]
  · intro hw
    have hforfeit : (checkRepetition f t s rules).shouldForfeit = true := by
      rw [shouldForfeit_eq, hasRep_true hrep, hpc, decide_eq_true hforf,
        decide_eq_true hw]
      rfl
    rw [gameMoveHandler_valid f t pc s rules hst hpc hown hval, hforfeit]
    simp
  · intro hlt
    have hforfeit : (checkRepetition f t s rules).shouldForfeit = false := by
      rw [shouldForfeit_eq, hpc,
        decide_eq_false (by omega : ¬ 2 ≤ s.repetitionWarnings.get pc),
        Bool.and_false]
    constructor
    · rw [gameMoveHandler_valid f t pc s rules hst hpc hown hval, hforfeit]
      simp only [Bool.false_eq_true, if_false]
      split
      · intro h
        cases h
      · split
        · intro h
          injection h with h2
          exact mmw_ne_forfeitGame f t s true pc hown' hval' h2
        · intro h
          injection h with h2
          exact mmw_ne_forfeitGame f t s false pc hown' hval' h2
    · intro hwarn hblock
      have hW : (checkRepetition f t s rules).shouldWarn = true := by
        rw [shouldWarn_eq, hasRep_true hrep, decide_eq_true hwarn]
        rfl
      have hB : (checkRepetition f t s rules).shouldBlock = false := by
        rw [shouldBlock_eq, decide_eq_false hblock, Bool.and_false]
      rw [gameMoveHandler_valid f t pc s rules hst hpc hown hval, hforfeit, hB, hW]
      refine ⟨by simp, ?_⟩
      rw [mmw_true_valid f t s hown' hval']
      show ((makeMove f t s).repetitionWarnings.set s.currentPlayer
        (s.repetitionWarnings.get s.currentPlayer + 1)).get pc =
          s.repetitionWarnings.get pc + 1
      rw [hpc, warnings_get_set]

/-- C4 witness: in a state where blue's warning counter is already 2, rules
`[warning, forfeit]`, and the candidate move `CL → L2` is a piece bounce, the
gateway forfeits the game for blue. -/
theorem crossway_c4_witness :
    (let s2 := makeMoveWithWarning .R2 .CR
      (makeMoveWithWarning .L2 .CL createInitialGameState false) false
     let s := { s2 with repetitionWarnings := { blue := 2, red := 0 } }
     gameMoveHandler .CL .L2 .blue s [.warning, .forfeit] =
       .applied (forfeitGame s .blue)) :=
  (crossway_c4 .CL .L2 _ [.warning, .forfeit] .blue (by decide) (by decide)
    (by decide) (by decide) (Or.inl (by decide)) (by decide)).2.1 (by decide)

/-- C8: for a move request that passes the room lookup and the
turn/ownership/destination validations, the handler applies exactly one
outcome with precedence forfeit > block > warn > plain apply; in the block
case the requester gets `MOVE_BLOCKED` and the manager state — hence the
room's game state — is returned unchanged (`updateGameState` is not called),
while the other three outcomes persist their new state via `updateGameState`. -/
theorem crossway_c8 (mgr : ManagerState) (roomId : String) (room : Room)
    (f t : Position) (pc : Player)
    (hroom : assocGet mgr.rooms roomId = some room)
    (hst : room.gameState.status = .playing)
    (hpc : room.gameState.currentPlayer = pc)
    (hown : getPieceOwner f room.gameState = some pc)
    (hval : t ∈ getValidMoves f room.gameState) :
    ((checkRepetition f t room.gameState room.settings.enabledRules).shouldForfeit = true →
      roomMoveHandler mgr roomId pc f t =
        (.applied (forfeitGame room.gameState pc),
          (updateGameState mgr roomId (forfeitGame room.gameState pc)).2)) ∧
    ((checkRepetition f t room.gameState room.settings.enabledRules).shouldForfeit = false →
      (checkRepetition f t room.gameState room.settings.enabledRules).shouldBlock = true →
      roomMoveHandler mgr roomId pc f t = (.errorCode "MOVE_BLOCKED", mgr)) ∧
    ((checkRepetition f t room.gameState room.settings.enabledRules).shouldForfeit = false →
      (checkRepetition f t room.gameState room.settings.enabledRules).shouldBlock = false →
      (checkRepetition f t room.gameState room.settings.enabledRules).shouldWarn = true →
      roomMoveHandler mgr roomId pc f t =
        (.applied (makeMoveWithWarning f t room.gameState true),
          (updateGameState mgr roomId (makeMoveWithWarning f t room.gameState true)).2)) ∧
    ((checkRepetition f t room.gameState room.settings.enabledRules).shouldForfeit = false →
      (checkRepetition f t room.gameState room.settings.enabledRules).shouldBlock = false →
      (checkRepetition f t room.gameState room.settings.enabledRules).shouldWarn = false →
      roomMoveHandler mgr roomId pc f t =
        (.applied (makeMoveWithWarning f t room.gameState false),
          (updateGameState mgr roomId (makeMoveWithWarning f t room.gameState false)).2)) := by
  have hbase : roomMoveHandler mgr roomId pc f t =
      match gameMoveHandler f t pc room.gameState room.settings.enabledRules with
      | .errorCode c => (.errorCode c, mgr)
      | .applied newState => (.applied newState, (updateGameState mgr roomId newState).2) := by
    unfold roomMoveHandler
    rw [hroom]
  refine ⟨?_, ?_, ?_, ?_⟩
  · intro h1
    rw [hbase, gameMoveHandler_valid f t pc room.gameState _ hst hpc hown hval, h1]
    simp
  · intro h1 h2
    rw [hbase, gameMoveHandler_valid f t pc room.gameState _ hst hpc hown hval, h1, h2]
    simp
  · intro h1 h2 h3
    rw [hbase, gameMoveHandler_valid f t pc room.gameState _ hst hpc hown hval, h1, h2, h3]
    simp
  · intro h1 h2 h3
    rw [hbase, gameMoveHandler_valid f t pc room.gameState _ hst hpc hown hval, h1, h2, h3]
    simp

/-- C8 witness: in a room whose rules are `[block]` with a bounce candidate
move, the handler replies `MOVE_BLOCKED` and leaves the manager unchanged. -/
theorem crossway_c8_witness :
    roomMoveHandler wBlockMgr "r" .blue .CL .L2 = (.errorCode "MOVE_BLOCKED", wBlockMgr) :=
  (crossway_c8 wBlockMgr "r" wBlockRoom .CL .L2 .blue (by decide) (by decide)
    (by decide) (by decide) (by decide)).2.1 (by decide) (by decide)

/-- C6: joining a nonexistent room (while the global room count is below the
maximum) creates it with the joiner as host and colour blue; a second distinct
player joining the same room is assigned red and is not host; a third distinct
player is rejected with `ROOM_FULL` while both seats are held by connected
players. -/
theorem crossway_c6 (mgr : ManagerState) (now1 now2 now3 : Nat)
    (roomId p1 p2 p3 : String)
    (hroom : assocGet mgr.rooms roomId = none)
    (hcap : mgr.rooms.length < mgr.maxRooms)
    (h12 : p1 ≠ p2) (h13 : p1 ≠ p3) (h23 : p2 ≠ p3) :
    ∃ (room1 room2 : Room) (mgr1 mgr2 : ManagerState),
      createOrJoinRoom mgr now1 roomId p1 none = (.ok room1 Player.blue false, mgr1) ∧
      room1.hostId = p1 ∧
      room1.players =
        [{ id := p1, color := Player.blue, connected := true, disconnectedAt := none }] ∧
      createOrJoinRoom mgr1 now2 roomId p2 none = (.ok room2 Player.red false, mgr2) ∧
      room2.hostId = p1 ∧ room2.hostId ≠ p2 ∧
      room2.players =
        [{ id := p1, color := Player.blue, connected := true, disconnectedAt := none },
         { id := p2, color := Player.red, connected := true, disconnectedAt := none }] ∧
      (createOrJoinRoom mgr2 now3 roomId p3 none).1 = .fail "Room is full" "ROOM_FULL" := by
  set pl1 : RoomPlayer :=
    { id := p1, color := Player.blue, connected := true, disconnectedAt := none } with hpl1
  set pl2 : RoomPlayer :=
    { id := p2, color := Player.red, connected := true, disconnectedAt := none } with hpl2
  set room1 : Room :=
    { id := roomId, hostId := p1, password := none, players := [pl1]
      gameState := createInitialGameState, settings := createDefaultSettings
      createdAt := now1 } with hroom1
  set room2 : Room := { room1 with players := [pl1, pl2] } with hroom2
  set mgr1 : ManagerState :=
    { mgr with
      rooms := assocSet mgr.rooms roomId room1
      playerRooms := assocSet mgr.playerRooms p1 roomId } with hmgr1
  set mgr2 : ManagerState :=
    { mgr1 with
      rooms := assocSet mgr1.rooms roomId room2
      playerRooms := assocSet mgr1.playerRooms p2 roomId } with hmgr2
  have e1 : createOrJoinRoom mgr now1 roomId p1 none =
      (.ok room1 Player.blue false, mgr1) := by
    simp [createOrJoinRoom, hroom, canCreateRoom, hcap, hmgr1, hroom1, hpl1]
  have eget1 : assocGet mgr1.rooms roomId = some room1 := by
    rw [hmgr1]
    exact assocGet_set_self mgr.rooms roomId room1
  have e2 : createOrJoinRoom mgr1 now2 roomId p2 none =
      (.ok room2 Player.red false, mgr2) := by
    simp [createOrJoinRoom, eget1, hroom1, hpl1, hpl2, playerActive, playerExpired,
      h12, Ne.symm h12, hroom2, hmgr2]
  have eget2 : assocGet mgr2.rooms roomId = some room2 := by
    rw [hmgr2]
    exact assocGet_set_self mgr1.rooms roomId room2
  have e3 : (createOrJoinRoom mgr2 now3 roomId p3 none).1 =
      .fail "Room is full" "ROOM_FULL" := by
    simp [createOrJoinRoom, eget2, hroom2, hroom1, hpl1, hpl2, playerActive,
      h13, h23, Ne.symm h13, Ne.symm h23]
  exact ⟨room1, room2, mgr1, mgr2, e1, rfl, rfl, e2, rfl, fun h => h12 h, rfl, e3⟩

/-- C6 witness: concrete ids "a", "b", "c" joining room "r" on an empty
manager. -/
theorem crossway_c6_witness :
    ∃ (room1 room2 : Room) (mgr1 mgr2 : ManagerState),
      createOrJoinRoom
          ({ rooms := [], playerRooms := [], disconnectTimers := [], maxRooms := 100 })
          10 "r" "a" none = (.ok room1 Player.blue false, mgr1) ∧
      room1.hostId = "a" ∧
      room1.players =
        [{ id := "a", color := Player.blue, connected := true, disconnectedAt := none }] ∧
      createOrJoinRoom mgr1 20 "r" "b" none = (.ok room2 Player.red false, mgr2) ∧
      room2.hostId = "a" ∧ room2.hostId ≠ "b" ∧
      room2.players =
        [{ id := "a", color := Player.blue, connected := true, disconnectedAt := none },
         { id := "b", color := Player.red, connected := true, disconnectedAt := none }] ∧
      (createOrJoinRoom mgr2 30 "r" "c" none).1 = .fail "Room is full" "ROOM_FULL" :=
  crossway_c6 _ 10 20 30 "r" "a" "b" "c" rfl (by decide) (by decide) (by decide)
    (by decide)

/-- C7: a disconnected player rejoining with the same `playerId` while their
seat still exists gets back the same colour with `isReconnect = true`, the
room keeps its `hostId` (host status retained), the pending disconnect timer
key is cancelled and `disconnectedAt` is cleared; once the grace period has
fully elapsed without rejoining, a new distinct player joining takes over the
expired seat's colour, the old player's room-index entry and timer key are
removed, and the old identity is afterwards rejected with `ROOM_FULL`. -/
theorem crossway_c7 (roomId p1 p2 p3 : String) (gs : GameState) (st : GameSettings)
    (tc mrooms td tr tn t4 : Nat)
    (h12 : p1 ≠ p2) (h13 : p1 ≠ p3) (h23 : p2 ≠ p3)
    (hgrace : tr - td < RECONNECT_GRACE_PERIOD_MS)
    (hexp : RECONNECT_GRACE_PERIOD_MS ≤ tn - td) :
    (let mgrD := (markPlayerDisconnected (twoSeatMgr roomId p1 p2 gs st tc mrooms) td p1).2
     let rA := createOrJoinRoom mgrD tr roomId p1 none
     rA.1 = .ok (twoSeatRoom roomId p1 p2 gs st tc) Player.blue true ∧
     assocGet rA.2.rooms roomId = some (twoSeatRoom roomId p1 p2 gs st tc) ∧
     (twoSeatRoom roomId p1 p2 gs st tc).hostId = p1 ∧
     timerKey roomId p1 ∉ rA.2.disconnectTimers) ∧
    (let mgrE := (markPlayerDisconnected (twoSeatMgr roomId p1 p2 gs st tc mrooms) td p2).2
     let rB := createOrJoinRoom mgrE tn roomId p3 none
     rB.1 = .ok
       ({ id := roomId, hostId := p1, password := none
          players :=
            [{ id := p1, color := Player.blue, connected := true, disconnectedAt := none },
             { id := p3, color := Player.red, connected := true, disconnectedAt := none }]
          gameState := gs, settings := st, createdAt := tc })
       Player.red false ∧
     assocGet rB.2.playerRooms p2 = none ∧
     timerKey roomId p2 ∉ rB.2.disconnectTimers ∧
     (createOrJoinRoom rB.2 t4 roomId p2 none).1 = .fail "Room is full" "ROOM_FULL") := by
  have hlt : ¬ (tn - td < RECONNECT_GRACE_PERIOD_MS) := Nat.not_lt.mpr hexp
  constructor
  · simp [markPlayerDisconnected, createOrJoinRoom, twoSeatMgr, twoSeatRoom, assocGet,
      assocSet, assocDelete, updateFirstBy, setTimer, clearTimer, playerActive,
      playerExpired, h12, Ne.symm h12]
  · simp [markPlayerDisconnected, createOrJoinRoom, twoSeatMgr, twoSeatRoom, assocGet,
      assocSet, assocDelete, updateFirstBy, removeFirstBy, setTimer, clearTimer,
      playerActive, playerExpired, h12, h13, h23, Ne.symm h12, Ne.symm h13, Ne.symm h23,
      hlt, hexp]

/-- C7 witness: concrete ids and times (disconnect at 1000, reconnect at
2000 inside the 30000 ms grace window; repossession check at 40000, after the
window). -/
theorem crossway_c7_witness :
    (let mgrD := (markPlayerDisconnected
        (twoSeatMgr "r" "a" "b" createInitialGameState createDefaultSettings 0 100) 1000 "a").2
     let rA := createOrJoinRoom mgrD 2000 "r" "a" none
     rA.1 = .ok (twoSeatRoom "r" "a" "b" createInitialGameState createDefaultSettings 0)
       Player.blue true ∧
     assocGet rA.2.rooms "r" =
       some (twoSeatRoom "r" "a" "b" createInitialGameState createDefaultSettings 0) ∧
     (twoSeatRoom "r" "a" "b" createInitialGameState createDefaultSettings 0).hostId = "a" ∧
     timerKey "r" "a" ∉ rA.2.disconnectTimers) ∧
    (let mgrE := (markPlayerDisconnected
        (twoSeatMgr "r" "a" "b" createInitialGameState createDefaultSettings 0 100) 1000 "b").2
     let rB := createOrJoinRoom mgrE 40000 "r" "c" none
     rB.1 = .ok
       ({ id := "r", hostId := "a", password := none
          players :=
            [{ id := "a", color := Player.blue, connected := true, disconnectedAt := none },
             { id := "c", color := Player.red, connected := true, disconnectedAt := none }]
          gameState := createInitialGameState, settings := createDefaultSettings
          createdAt := 0 })
       Player.red false ∧
     assocGet rB.2.playerRooms "b" = none ∧
     timerKey "r" "b" ∉ rB.2.disconnectTimers ∧
     (createOrJoinRoom rB.2 50000 "r" "b" none).1 = .fail "Room is full" "ROOM_FULL") :=
  crossway_c7 "r" "a" "b" "c" createInitialGameState createDefaultSettings 0 100 1000 2000
    40000 50000 (by decide) (by decide) (by decide) (by decide) (by decide)

/-- C10: when the host leaves while the only remaining seat is held by a
disconnected (in-grace) player, the host's seat is removed but `hostId` still
names the departed host (migration needs a connected remaining player);
consequently `isHost` is false for the remaining member and both
`updateSettings` and `resetGame` fail for them, with the manager unchanged. -/
theorem crossway_c10 (roomId p1 p2 : String) (gs : GameState) (st st2 : GameSettings)
    (tc td mrooms : Nat) (h12 : p1 ≠ p2) :
    (let res := leaveRoom (graceMgr roomId p1 p2 gs st tc td mrooms) p1
     res.1 =
       some { roomId := roomId, color := Player.blue, roomDeleted := false, isGracePeriod := false } ∧
     assocGet res.2.rooms roomId = some
       ({ id := roomId, hostId := p1, password := none
          players :=
            [{ id := p2, color := Player.red, connected := false, disconnectedAt := some td }]
          gameState := gs, settings := st, createdAt := tc }) ∧
     isHost res.2 roomId p2 = false ∧
     (updateSettings res.2 roomId p2 st2).1 = false ∧
     (updateSettings res.2 roomId p2 st2).2 = res.2 ∧
     (resetGame res.2 roomId p2).1 = none) := by
  simp [leaveRoom, graceMgr, graceRoom, assocGet, assocSet, assocDelete, removeFirstBy,
    clearTimer, isHost, updateSettings, resetGame, h12, Ne.symm h12]

/-- C10 witness: concrete host "a" leaving room "r" while "b" is in its grace
window. -/
theorem crossway_c10_witness :
    (let res := leaveRoom
        (graceMgr "r" "a" "b" createInitialGameState createDefaultSettings 0 1000 100) "a"
     res.1 =
       some { roomId := "r", color := Player.blue, roomDeleted := false, isGracePeriod := false } ∧
     assocGet res.2.rooms "r" = some
       ({ id := "r", hostId := "a", password := none
          players :=
            [{ id := "b", color := Player.red, connected := false, disconnectedAt := some 1000 }]
          gameState := createInitialGameState, settings := createDefaultSettings
          createdAt := 0 }) ∧
     isHost res.2 "r" "b" = false ∧
     (updateSettings res.2 "r" "b" createDefaultSettings).1 = false ∧
     (updateSettings res.2 "r" "b" createDefaultSettings).2 = res.2 ∧
     (resetGame res.2 "r" "b").1 = none) :=
  crossway_c10 "r" "a" "b" createInitialGameState createDefaultSettings
    createDefaultSettings 0 1000 100 (by decide)

/-- C9: the room-creation cooldown is consumed at admission time, before the
manager runs; if the manager then rejects with `MAX_ROOMS_REACHED` (no room
created, manager unchanged), a further new-room attempt from the same origin
within the cooldown window is rejected with `RATE_LIMIT_ROOM_COOLDOWN`. -/
theorem crossway_c9 (lim : RateLimiterState) (mgr : ManagerState) (ip : String)
    (roomA roomB pA : String) (lastT t1 t2 : Nat)
    (hlast : assocGet lim.lastRoomCreation ip = some lastT)
    (hallow : ROOM_CREATION_COOLDOWN_MS ≤ t1 - lastT)
    (hwithin : t2 - t1 < ROOM_CREATION_COOLDOWN_MS)
    (hroomA : assocGet mgr.rooms roomA = none)
    (hroomB : assocGet mgr.rooms roomB = none)
    (hfull : ¬ mgr.rooms.length < mgr.maxRooms)
    (hnoRoom : assocGet mgr.playerRooms pA = none) :
    (let r1 := roomJoinHandler lim mgr t1 roomA pA none ip
     r1.1 = .errorCode "MAX_ROOMS_REACHED" ∧
     assocGet r1.2.1.lastRoomCreation ip = some t1 ∧
     r1.2.2 = mgr ∧
     (roomJoinHandler r1.2.1 mgr t2 roomB pA none ip).1 =
       .errorCode "RATE_LIMIT_ROOM_COOLDOWN") := by
  have hnot1 : ¬ (t1 - lastT < ROOM_CREATION_COOLDOWN_MS) := Nat.not_lt.mpr hallow
  have echk1 : checkRoomCreation lim t1 ip true =
      (true, ⟨assocSet (assocSet lim.lastRoomCreation ip lastT) ip t1⟩) := by
    simp [checkRoomCreation, hlast, hnot1]
  have eget : assocGet (assocSet (assocSet lim.lastRoomCreation ip lastT) ip t1) ip =
      some t1 := assocGet_set_self _ ip t1
  have ej1 : roomJoinHandler lim mgr t1 roomA pA none ip =
      (.errorCode "MAX_ROOMS_REACHED",
        ⟨assocSet (assocSet lim.lastRoomCreation ip lastT) ip t1⟩, mgr) := by
    simp [roomJoinHandler, hnoRoom, hroomA, echk1, createOrJoinRoom, canCreateRoom, hfull]
  refine ⟨?_, ?_, ?_, ?_⟩
  · rw [ej1]
  · rw [ej1]
    exact eget
  · rw [ej1]
  · rw [ej1]
    simp [roomJoinHandler, hnoRoom, hroomB, checkRoomCreation, eget, hwithin]

/-- C9 witness: a full manager (one room, cap 1), origin "ip" last created at
time 0; the attempt at 50000 is admitted (cooldown consumed) but fails with
`MAX_ROOMS_REACHED`; the retry at 60000 hits `RATE_LIMIT_ROOM_COOLDOWN`. -/
theorem crossway_c9_witness :
    (let r1 := roomJoinHandler ({ lastRoomCreation := [("ip", 0)] })
       ({ rooms := [("x", wBlockRoom)], playerRooms := [], disconnectTimers := [],
          maxRooms := 1 }) 50000 "r" "a" none "ip"
     r1.1 = .errorCode "MAX_ROOMS_REACHED" ∧
     assocGet r1.2.1.lastRoomCreation "ip" = some 50000 ∧
     r1.2.2 =
       ({ rooms := [("x", wBlockRoom)], playerRooms := [], disconnectTimers := [], maxRooms := 1 }) ∧
     (roomJoinHandler r1.2.1
       ({ rooms := [("x", wBlockRoom)], playerRooms := [], disconnectTimers := [],
          maxRooms := 1 }) 60000 "r" "a" none "ip").1 =
       .errorCode "RATE_LIMIT_ROOM_COOLDOWN") :=
  crossway_c9 _ _ "ip" "r" "r" "a" 0 50000 60000 rfl (by decide) (by decide) rfl rfl
    (by decide) rfl

/-- C5: the board serialization is
`"{currentPlayer}:{sorted blue}|{sorted red}"`; a successful `makeMove`
appends exactly the serialization of the resulting state (i.e. computed after
the piece relocation and the player flip) to `boardStateHistory`; and the
serialization depends only on the occupancy sets (piece lists up to
permutation) and `currentPlayer`. -/
theorem crossway_c5 :
    (∀ s : GameState, serializeBoardState s =
      playerName s.currentPlayer ++ ":" ++
        String.intercalate "," ((sortPositions s.bluePieces).map posName) ++ "|" ++
        String.intercalate "," ((sortPositions s.redPieces).map posName)) ∧
    (∀ (f t : Position) (s : GameState),
      getPieceOwner f s = some s.currentPlayer → t ∈ getValidMoves f s →
      (makeMove f t s).boardStateHistory =
        s.boardStateHistory ++ [serializeBoardState (makeMove f t s)]) ∧
    (∀ s1 s2 : GameState, s1.currentPlayer = s2.currentPlayer →
      s1.bluePieces.Perm s2.bluePieces → s1.redPieces.Perm s2.redPieces →
      serializeBoardState s1 = serializeBoardState s2) :=
  ⟨fun _ => rfl, makeMove_board_append,
    fun _ _ hp hbp hrp => serializeBoardState_congr hp hbp hrp⟩

/-- C5 witness: the opening move appends its own serialization, and two
states whose piece lists are permutations of each other (with the same player
to move) serialize identically. -/
theorem crossway_c5_witness :
    ((makeMove .L2 .CL createInitialGameState).boardStateHistory =
      createInitialGameState.boardStateHistory ++
        [serializeBoardState (makeMove .L2 .CL createInitialGameState)]) ∧
    serializeBoardState
        { createInitialGameState with bluePieces := [.L3, .L1, .L2] } =
      serializeBoardState
        { createInitialGameState with redPieces := [.R2, .R3, .R1] } :=
  ⟨crossway_c5.2.1 .L2 .CL createInitialGameState (by decide) (by decide),
    crossway_c5.2.2 _ _ rfl (by decide) (by decide)⟩

end Crossway
